import Mathlib

/-!
Shallow embedding of `orlando_pd_monitor.py` (Orlando PD Active Calls
Monitor) and verification of its specification claims.

Python strings are modelled as `List Char`; Python's `set` as `Finset`;
the external XML library (`xml.etree.ElementTree.fromstring`) and the
network (push / email sends) are oracle parameters, since they are
collaborators outside this repository's code.  Exceptions raised by
collaborators are modelled with `Except` / outcome parameters; the
repository's own functions catch them, so their embeddings are total.
-/

/-- Python `str` modelled as a list of characters. -/
abbrev Str := List Char

/-- Python `str.strip()` with no arguments: remove leading and trailing
whitespace. -/
def pyStrip (s : Str) : Str :=
  ((s.dropWhile Char.isWhitespace).reverse.dropWhile Char.isWhitespace).reverse

/-- Python `str.upper()`, modelled character-wise. -/
def upper (s : Str) : Str := s.map Char.toUpper

/-- Python's substring test `needle in hay`. -/
def containsSub (needle hay : Str) : Bool :=
  hay.tails.any (fun t => needle.isPrefixOf t)

theorem containsSub_iff (needle hay : Str) :
    containsSub needle hay = true ↔ needle <:+: hay := by
  simp only [containsSub, List.any_eq_true, List.mem_tails,
    List.isPrefixOf_iff_prefix]
  constructor
  · rintro ⟨t, hts, hpt⟩
    exact List.infix_iff_prefix_suffix.mpr ⟨t, hpt, hts⟩
  · intro h
    obtain ⟨t, hpt, hts⟩ := List.infix_iff_prefix_suffix.mp h
    exact ⟨t, hts, hpt⟩

theorem containsSub_eq_decide (needle hay : Str) :
    containsSub needle hay = decide (needle <:+: hay) := by
  rcases h : containsSub needle hay with _ | _
  · symm
    simp only [decide_eq_false_iff_not]
    intro hc
    rw [(containsSub_iff needle hay).mpr hc] at h
    cases h
  · symm
    simp only [decide_eq_true_eq]
    exact (containsSub_iff needle hay).mp h

/-! ## NotificationTracker (`class NotificationTracker`)

`self.notified_incidents = set()` — a Python set of incident-number
strings, modelled as a `Finset Str`. -/

abbrev TrackerState := Finset Str

/-- `NotificationTracker.__init__`: the tracker starts empty. -/
def trackerInit : TrackerState := ∅

/-- `NotificationTracker.is_already_notified`:
`incident_number in self.notified_incidents`. -/
def is_already_notified (s : TrackerState) (incident_number : Str) : Bool :=
  decide (incident_number ∈ s)

/-- `NotificationTracker.mark_as_notified`:
`self.notified_incidents.add(incident_number)`. -/
def mark_as_notified (s : TrackerState) (incident_number : Str) : TrackerState :=
  insert incident_number s

/-- `NotificationTracker.get_notification_count`:
`len(self.notified_incidents)`. -/
def get_notification_count (s : TrackerState) : Nat := s.card

/-- One observable operation on a `NotificationTracker`.  `checkOp` and
`countOp` are read-only queries; `markOp` is the single mutator. -/
inductive TrackerOp where
  | checkOp (incident_number : Str)
  | markOp (incident_number : Str)
  | countOp
deriving DecidableEq

/-- State transition of a single tracker operation. -/
def applyOp (s : TrackerState) : TrackerOp → TrackerState
  | .checkOp _ => s
  | .markOp incident_number => mark_as_notified s incident_number
  | .countOp => s

theorem count_le_applyOp (s : TrackerState) (op : TrackerOp) :
    get_notification_count s ≤ get_notification_count (applyOp s op) := by
  cases op with
  | checkOp incident_number => exact le_refl _
  | markOp incident_number =>
      exact Finset.card_le_card (Finset.subset_insert _ _)
  | countOp => exact le_refl _

theorem count_le_foldl (ops : List TrackerOp) :
    ∀ s : TrackerState,
      get_notification_count s ≤ get_notification_count (ops.foldl applyOp s) := by
  induction ops with
  | nil => intro s; exact le_refl _
  | cons op rest ih =>
      intro s
      exact le_trans (count_le_applyOp s op) (ih (applyOp s op))

/-- C6: after one `mark_as_notified(id)` the tracker reports
`is_already_notified(id) = true`; a second mark of the same id leaves the
state and `get_notification_count()` unchanged; and the count is
monotonically non-decreasing over any sequence of tracker operations. -/
theorem C6_tracker_idempotent_monotone (s : TrackerState) (id : Str) :
    is_already_notified (mark_as_notified s id) id = true
    ∧ mark_as_notified (mark_as_notified s id) id = mark_as_notified s id
    ∧ get_notification_count (mark_as_notified (mark_as_notified s id) id)
        = get_notification_count (mark_as_notified s id)
    ∧ ∀ ops : List TrackerOp,
        get_notification_count s ≤ get_notification_count (ops.foldl applyOp s) := by
  refine ⟨?_, ?_, ?_, ?_⟩
  · simp [is_already_notified, mark_as_notified]
  · simp [mark_as_notified, Finset.insert_idem]
  · simp [mark_as_notified, Finset.insert_idem]
  · intro ops
    exact count_le_foldl ops s

/-! ## PoliceCall (`@dataclass class PoliceCall`)

The derived `parsed_datetime` field (`__post_init__` / `strptime`, `None`
on failure, non-fatal) is not modelled: no claim depends on it. -/

structure PoliceCall where
  incident_number : Str
  datetime_str : Str
  call_type : Str
  location : Str
  district : Str
deriving DecidableEq

/-! ## XML layer

`xml.etree.ElementTree` elements; `ET.fromstring` itself is an external
library call and enters the embedding as an oracle parameter
`fromstring : Str → Except Unit XmlElem` (`Except.error` models a raised
`ET.ParseError`). -/

inductive XmlElem where
  | mk (tag : Str) (attrs : List (Str × Str)) (text : Option Str)
      (children : List XmlElem)

def XmlElem.tag : XmlElem → Str
  | .mk t _ _ _ => t

def XmlElem.attrs : XmlElem → List (Str × Str)
  | .mk _ a _ _ => a

def XmlElem.text : XmlElem → Option Str
  | .mk _ _ tx _ => tx

def XmlElem.children : XmlElem → List XmlElem
  | .mk _ _ _ c => c

/-- `element.get(name, default)`: attribute lookup with a default. -/
def getAttr (e : XmlElem) (name dflt : Str) : Str :=
  match e.attrs.find? (fun p => p.1 == name) with
  | some p => p.2
  | none => dflt

/-- `element.findall(tag)`: all direct children with the given tag. -/
def findall (e : XmlElem) (tag : Str) : List XmlElem :=
  e.children.filter (fun c => c.tag == tag)

/-- `element.find(tag)`: the first direct child with the given tag, or
`None`. -/
def findChild (e : XmlElem) (tag : Str) : Option XmlElem :=
  e.children.find? (fun c => c.tag == tag)

/-- `elem.text.strip() if elem.text else ''` (an absent or empty text node
becomes the empty string). -/
def elemText (e : XmlElem) : Str :=
  match e.text with
  | some t => pyStrip t
  | none => []

/-- The loop body of `parse_active_calls` for one `CALL` element:
`call_element.get('incident', '')`, the four `find` calls, the
skip-if-any-element-missing check (lines 289–293), and construction of the
`PoliceCall`.  `none` means the record is skipped. -/
def processCall (call_element : XmlElem) : Option PoliceCall :=
  match findChild call_element ("DATE".toList), findChild call_element ("DESC".toList),
      findChild call_element ("LOCATION".toList), findChild call_element ("DISTRICT".toList) with
  | some date_elem, some desc_elem, some location_elem, some district_elem =>
      some { incident_number := getAttr call_element ("incident".toList) []
             datetime_str := elemText date_elem
             call_type := elemText desc_elem
             location := elemText location_elem
             district := elemText district_elem }
  | _, _, _, _ => none

/-- The UTF-8 byte-order-mark character `'﻿'`. -/
def bomChar : Char := '﻿'

/-- The six-character mis-decoded BOM artifact literal of line 272 of the
source (codepoints U+221A U+00D8 U+00AC U+00AA U+00AC U+00F8). -/
def mojibakeBOM : Str := ['√', 'Ø', '¬', 'ª', '¬', 'ø']

/-- The BOM-cleanup prologue of `parse_active_calls` (lines 267–273):
drop one leading `'﻿'` if present, then — if the (six-character)
mojibake artifact is a prefix — drop three characters (`clean_data[3:]`,
as written in the source). -/
def stripBOM (raw_data : Str) : Str :=
  let clean_data := if [bomChar].isPrefixOf raw_data then raw_data.drop 1 else raw_data
  if mojibakeBOM.isPrefixOf clean_data then clean_data.drop 3 else clean_data

/-- `parse_active_calls(raw_data)`.  Empty/whitespace-only input returns
`[]`; a `fromstring` failure (`ET.ParseError`, or any other exception) is
caught and returns `[]`; otherwise each direct `CALL` child of the root is
processed by `processCall`, skipped records contributing nothing. -/
def parse_active_calls (fromstring : Str → Except Unit XmlElem)
    (raw_data : Str) : List PoliceCall :=
  if pyStrip raw_data = [] then []
  else
    match fromstring (stripBOM raw_data) with
    | .error _ => []
    | .ok root => (findall root ("CALL".toList)).filterMap processCall

/-- `search_calls_by_location(calls, search_term)`: keep the calls whose
location contains the uppercased term (`search_upper in call.location.upper()`),
in order. -/
def search_calls_by_location (calls : List PoliceCall) (search_term : Str) :
    List PoliceCall :=
  if calls.isEmpty then []
  else calls.filter (fun call => containsSub (upper search_term) (upper call.location))

theorem search_eq_filter (calls : List PoliceCall) (search_term : Str) :
    search_calls_by_location calls search_term
      = calls.filter (fun call => containsSub (upper search_term) (upper call.location)) := by
  cases calls <;> simp [search_calls_by_location]

/-- C5: `search_calls_by_location` returns exactly the order-preserving
subsequence of records whose location contains the term case-insensitively,
and the searches for "foreland" and "FORELAND" coincide on every record
list. -/
theorem C5_location_filtering (calls : List PoliceCall) (search_term : Str) :
    search_calls_by_location calls search_term
      = calls.filter (fun call => decide (upper search_term <:+: upper call.location))
    ∧ (search_calls_by_location calls search_term).Sublist calls
    ∧ search_calls_by_location calls ("foreland".toList)
      = search_calls_by_location calls ("FORELAND".toList) := by
  refine ⟨?_, ?_, ?_⟩
  · rw [search_eq_filter]
    simp only [containsSub_eq_decide]
  · rw [search_eq_filter]
    exact List.filter_sublist _
  · rw [search_eq_filter, search_eq_filter]
    have h : upper ("foreland".toList) = upper ("FORELAND".toList) := by decide
    rw [h]

/-! ## C2: which records does the parser drop?

A `CALL` element is skipped only when one of the four child *elements*
(`DATE`, `DESC`, `LOCATION`, `DISTRICT`) is absent.  A present element
whose text is empty yields an empty-string field, and a missing
`incident` attribute defaults to `''` — such records are kept. -/

/-- A realizable `CALL` element with all four children present but with an
empty `DATE` text node and no `incident` attribute. -/
def emptyDateCall : XmlElem :=
  .mk ("CALL".toList) [] none
    [ .mk ("DATE".toList) [] none [],
      .mk ("DESC".toList) [] (some ("General investigation".toList)) [],
      .mk ("LOCATION".toList) [] (some ("2400 BLOCK 29TH ST".toList)) [],
      .mk ("DISTRICT".toList) [] (some ("G8".toList)) [] ]

def emptyDateTree : XmlElem := .mk ("CALLS".toList) [] none [emptyDateCall]

/-- Oracle for the C2 counterexample: structural parsing of `rawC2` yields
`emptyDateTree`.  This is exactly what `ET.fromstring` produces on that
document: an empty element has `text = None`, and this `CALL` carries no
`incident` attribute. -/
def fromstringC2 : Str → Except Unit XmlElem := fun _ => .ok emptyDateTree

def rawC2 : Str :=
  ("<CALLS><CALL><DATE></DATE><DESC>General investigation</DESC><LOCATION>2400 BLOCK 29TH ST</LOCATION><DISTRICT>G8</DISTRICT></CALL></CALLS>").toList

/-- The record the parser synthesizes from `emptyDateCall`: empty
`incident_number` and empty `datetime_str`. -/
def emptyDateRecord : PoliceCall :=
  { incident_number := []
    datetime_str := []
    call_type := ("General investigation".toList)
    location := ("2400 BLOCK 29TH ST".toList)
    district := ("G8".toList) }

/-- C2 counterexample: a record with an empty (missing) `incident_id` and
an empty timestamp text *does* appear in the parsed output, so the claim
"a record with a missing incident_id or empty timestamp/type/location/
district is dropped" is false of the code. -/
theorem C2_counterexample :
    parse_active_calls fromstringC2 rawC2 = [emptyDateRecord]
    ∧ emptyDateRecord.incident_number = []
    ∧ emptyDateRecord.datetime_str = [] := by
  refine ⟨?_, rfl, rfl⟩
  decide

/-- C2 (amended): during parsing a `CALL` record is dropped *iff* one of
the four child elements (`DATE`, `DESC`, `LOCATION`, `DISTRICT`) is
absent; a missing `incident` attribute and present-but-empty text nodes do
not cause a drop (they become empty strings).  On a successful structural
parse of non-whitespace input, the output is exactly the per-`CALL`
processing of the root's direct `CALL` children. -/
theorem C2_dropped_incomplete_amended (e : XmlElem)
    (fromstring : Str → Except Unit XmlElem) (raw : Str) (root : XmlElem)
    (h1 : pyStrip raw ≠ []) (h2 : fromstring (stripBOM raw) = .ok root) :
    ((processCall e) = none ↔
      (findChild e ("DATE".toList) = none ∨ findChild e ("DESC".toList) = none
        ∨ findChild e ("LOCATION".toList) = none ∨ findChild e ("DISTRICT".toList) = none))
    ∧ parse_active_calls fromstring raw
        = (findall root ("CALL".toList)).filterMap processCall := by
  constructor
  · unfold processCall
    rcases hd : findChild e ("DATE".toList) with _ | d <;>
      rcases hc : findChild e ("DESC".toList) with _ | c <;>
      rcases hl : findChild e ("LOCATION".toList) with _ | l <;>
      rcases hr : findChild e ("DISTRICT".toList) with _ | r <;> simp
  · rw [parse_active_calls, if_neg h1, h2]

/-- C2 witness: the amended theorem applied to the concrete counterexample
scenario. -/
theorem C2_amended_witness :
    ((processCall emptyDateCall) = none ↔
      (findChild emptyDateCall ("DATE".toList) = none
        ∨ findChild emptyDateCall ("DESC".toList) = none
        ∨ findChild emptyDateCall ("LOCATION".toList) = none
        ∨ findChild emptyDateCall ("DISTRICT".toList) = none))
    ∧ parse_active_calls fromstringC2 rawC2
        = (findall emptyDateTree ("CALL".toList)).filterMap processCall :=
  C2_dropped_incomplete_amended emptyDateCall fromstringC2 rawC2 emptyDateTree
    (by decide) rfl

/-- Oracle that always reports a structural parse failure (models
`ET.ParseError` on malformed markup). -/
def fromstringErr : Str → Except Unit XmlElem := fun _ => .error ()

/-- C7: `parse_active_calls` is total (its embedding returns a plain list;
every collaborator exception is caught): empty or whitespace-only input
yields `[]`, and a whole-input structural parse failure is caught and
yields `[]` instead of propagating. -/
theorem C7_parser_totality (fromstring : Str → Except Unit XmlElem) (raw : Str) :
    (pyStrip raw = [] → parse_active_calls fromstring raw = [])
    ∧ (∀ e, fromstring (stripBOM raw) = .error e →
        parse_active_calls fromstring raw = []) := by
  constructor
  · intro h
    simp [parse_active_calls, h]
  · intro e h
    by_cases hs : pyStrip raw = []
    · simp [parse_active_calls, hs]
    · simp [parse_active_calls, hs, h]

/-- C7 witness: whitespace-only input and a malformed-markup input both
yield the empty record list. -/
theorem C7_witness :
    parse_active_calls fromstringErr ("   ".toList) = []
    ∧ parse_active_calls fromstringErr ("<CALLS>".toList) = [] :=
  ⟨(C7_parser_totality fromstringErr ("   ".toList)).1 (by decide),
   (C7_parser_totality fromstringErr ("<CALLS>".toList)).2 () rfl⟩

/-! ## Configuration (`class Config`)

Only the fields that influence the verified behaviour are modelled; the
topic/url strings, poll interval and email addresses are opaque to every
claim. `email_enabled = all([resend_api_key, email_to, email_from])`. -/

structure Config where
  search_term : Str
  email_enabled : Bool

/-! ## Push channel (`send_notification`)

The HTTP POST to ntfy.sh is external: its result enters as a
`PushOutcome` (success = 2xx; the other constructors are the exception
paths the source catches).  `SendResult.returned` is the Python return
value; `attempted` records whether a POST was issued (trace
instrumentation); `tracker` is the tracker state after the call, since
the Python mutates the tracker in place. -/

inductive PushOutcome where
  | success
  | timeout
  | connectionError
  | httpError
  | otherError
deriving DecidableEq

structure SendResult where
  returned : Bool
  attempted : Bool
  tracker : TrackerState
deriving DecidableEq

/-- `send_notification(call, config, tracker)` under a given world outcome:
duplicate check first (returns `False`, no attempt); otherwise the POST is
attempted; only on success is the tracker marked and `True` returned; every
failure path returns `False` leaving the tracker untouched. -/
def send_notification (call : PoliceCall) (config : Config)
    (tracker : TrackerState) (outcome : PushOutcome) : SendResult :=
  if is_already_notified tracker call.incident_number then
    { returned := false, attempted := false, tracker := tracker }
  else
    match outcome with
    | .success =>
        { returned := true, attempted := true,
          tracker := mark_as_notified tracker call.incident_number }
    | .timeout => { returned := false, attempted := true, tracker := tracker }
    | .connectionError => { returned := false, attempted := true, tracker := tracker }
    | .httpError => { returned := false, attempted := true, tracker := tracker }
    | .otherError => { returned := false, attempted := true, tracker := tracker }

/-- C1: if the incident id is already marked, `send_notification` makes no
send attempt, returns the not-sent result and leaves the tracker unchanged;
the tracker gains the id exactly when a genuine send succeeds, and is
unchanged on every failure outcome. -/
theorem C1_dedup_gating (call : PoliceCall) (config : Config)
    (tracker : TrackerState) (outcome : PushOutcome) :
    (is_already_notified tracker call.incident_number = true →
      (send_notification call config tracker outcome).attempted = false
      ∧ (send_notification call config tracker outcome).returned = false
      ∧ (send_notification call config tracker outcome).tracker = tracker)
    ∧ (is_already_notified tracker call.incident_number = false →
        outcome = .success →
        (send_notification call config tracker outcome).tracker
          = mark_as_notified tracker call.incident_number)
    ∧ (outcome ≠ .success →
        (send_notification call config tracker outcome).tracker = tracker)
    ∧ ((send_notification call config tracker outcome).tracker ≠ tracker →
        outcome = .success
        ∧ is_already_notified tracker call.incident_number = false) := by
  rcases hmem : is_already_notified tracker call.incident_number with _ | _ <;>
    cases outcome <;> simp [send_notification, hmem]

def callA : PoliceCall :=
  { incident_number := ("2025-00192513".toList)
    datetime_str := ("5/27/2025 13:36".toList)
    call_type := ("General investigation".toList)
    location := ("2400 BLOCK 29TH ST".toList)
    district := ("G8".toList) }

def configA : Config := { search_term := ("29TH".toList), email_enabled := true }

/-- A tracker that has already notified `callA`. -/
def trackerA : TrackerState := mark_as_notified trackerInit ("2025-00192513".toList)

/-- C1 witness: concrete duplicate call (no attempt, unchanged tracker) and
concrete failed attempt (unchanged tracker). -/
theorem C1_witness :
    ((send_notification callA configA trackerA .success).attempted = false
      ∧ (send_notification callA configA trackerA .success).returned = false
      ∧ (send_notification callA configA trackerA .success).tracker = trackerA)
    ∧ (send_notification callA configA trackerInit .timeout).tracker = trackerInit :=
  ⟨(C1_dedup_gating callA configA trackerA .success).1 (by decide),
   (C1_dedup_gating callA configA trackerInit .timeout).2.2.1 (by decide)⟩

/-- C9 counterexample: a duplicate-skip and an attempted-but-timed-out send
both make `send_notification` return `False` — the caller cannot tell the
two outcomes apart from the returned value (only the attempt trace and the
log line differ). -/
theorem C9_counterexample :
    (send_notification callA configA trackerA .timeout).returned
      = (send_notification callA configA trackerInit .timeout).returned
    ∧ (send_notification callA configA trackerA .timeout).attempted = false
    ∧ (send_notification callA configA trackerInit .timeout).attempted = true := by
  decide

/-- C9 (amended): `send_notification` returns a single boolean that is
`True` exactly when a genuinely new push succeeded; "duplicate, skipped"
and "attempted and failed" both return `False` and are distinguished by
whether a send was attempted (visible in the logs), not by the return
value. -/
theorem C9_push_result_amended (call : PoliceCall) (config : Config)
    (tracker : TrackerState) (outcome : PushOutcome) :
    ((send_notification call config tracker outcome).returned = true ↔
      (is_already_notified tracker call.incident_number = false
        ∧ outcome = .success))
    ∧ (is_already_notified tracker call.incident_number = true →
        (send_notification call config tracker outcome).returned = false
        ∧ (send_notification call config tracker outcome).attempted = false)
    ∧ (is_already_notified tracker call.incident_number = false →
        outcome ≠ .success →
        (send_notification call config tracker outcome).returned = false
        ∧ (send_notification call config tracker outcome).attempted = true) := by
  rcases hmem : is_already_notified tracker call.incident_number with _ | _ <;>
    cases outcome <;> simp [send_notification, hmem]

/-- C9 witness: the amended characterization at a concrete duplicate and a
concrete connection failure. -/
theorem C9_amended_witness :
    ((send_notification callA configA trackerA .connectionError).returned = false
      ∧ (send_notification callA configA trackerA .connectionError).attempted = false)
    ∧ ((send_notification callA configA trackerInit .connectionError).returned = false
      ∧ (send_notification callA configA trackerInit .connectionError).attempted = true) :=
  ⟨(C9_push_result_amended callA configA trackerA .connectionError).2.1 (by decide),
   (C9_push_result_amended callA configA trackerInit .connectionError).2.2
     (by decide) (by decide)⟩

/-! ## Email channel and batch processing -/

/-- `send_email_notification(call, config)` under a given world outcome:
returns `False` immediately when email is not configured; otherwise the
provider call's success boolean (every exception is caught and reported as
`False`, folded into `outcome = false`). -/
def send_email_notification (config : Config) (outcome : Bool) : Bool :=
  if config.email_enabled then outcome else false

/-- Trace of one iteration of the `process_and_notify_matches` loop:
the push channel's return value and whether it attempted a send, whether
`send_email_notification` was invoked at all, and what it returned. -/
structure NotifyEvent where
  call : PoliceCall
  pushReturned : Bool
  pushAttempted : Bool
  emailInvoked : Bool
  emailReturned : Bool
deriving DecidableEq

structure ProcResult where
  notifications_sent : Nat
  tracker : TrackerState
  trace : List NotifyEvent
deriving DecidableEq

/-- The loop of `process_and_notify_matches`, threading the tracker and the
per-iteration world outcomes (`pushOutcomes i`, `emailOutcomes i` for the
`i`-th matching call).  Email is invoked iff `ntfy_success`; the counter is
incremented iff `ntfy_success`. -/
def processGo (config : Config) (pushOutcomes : Nat → PushOutcome)
    (emailOutcomes : Nat → Bool) :
    List PoliceCall → Nat → TrackerState → ProcResult
  | [], _, tracker => { notifications_sent := 0, tracker := tracker, trace := [] }
  | call :: rest, i, tracker =>
      let r := send_notification call config tracker (pushOutcomes i)
      let rest' := processGo config pushOutcomes emailOutcomes rest (i + 1) r.tracker
      { notifications_sent := (if r.returned then 1 else 0) + rest'.notifications_sent
        tracker := rest'.tracker
        trace :=
          { call := call
            pushReturned := r.returned
            pushAttempted := r.attempted
            emailInvoked := r.returned
            emailReturned :=
              if r.returned then send_email_notification config (emailOutcomes i)
              else false } :: rest'.trace }

/-- `process_and_notify_matches(matching_calls, config, tracker)`: the
empty-batch early return is the `[]` case of the loop. -/
def process_and_notify_matches (config : Config) (pushOutcomes : Nat → PushOutcome)
    (emailOutcomes : Nat → Bool) (matching_calls : List PoliceCall)
    (tracker : TrackerState) : ProcResult :=
  processGo config pushOutcomes emailOutcomes matching_calls 0 tracker

theorem processGo_email_iff_push (config : Config) (po : Nat → PushOutcome)
    (eo : Nat → Bool) :
    ∀ (calls : List PoliceCall) (i : Nat) (tracker : TrackerState),
      ∀ ev ∈ (processGo config po eo calls i tracker).trace,
        ev.emailInvoked = ev.pushReturned := by
  intro calls
  induction calls with
  | nil => intro i tracker ev hev; simp [processGo] at hev
  | cons call rest ih =>
      intro i tracker ev hev
      simp only [processGo, List.mem_cons] at hev
      rcases hev with hev | hev
      · subst hev; rfl
      · exact ih (i + 1) _ ev hev

/-- C3: in every batch, the email channel is invoked for an incident iff
the push channel returned success for that incident in the same cycle —
never after a duplicate-skip or a failed push. -/
theorem C3_push_gates_email (config : Config) (pushOutcomes : Nat → PushOutcome)
    (emailOutcomes : Nat → Bool) (matching_calls : List PoliceCall)
    (tracker : TrackerState) :
    ∀ ev ∈ (process_and_notify_matches config pushOutcomes emailOutcomes
        matching_calls tracker).trace,
      ev.emailInvoked = ev.pushReturned :=
  processGo_email_iff_push config pushOutcomes emailOutcomes matching_calls 0 tracker

/-- World in which every push POST succeeds. -/
def poSuccess : Nat → PushOutcome := fun _ => .success

/-- World in which every email send succeeds. -/
def eoTrue : Nat → Bool := fun _ => true

/-- The single trace event of processing `[callA]` from an empty tracker in
the all-success world. -/
def evC3 : NotifyEvent :=
  { call := callA, pushReturned := true, pushAttempted := true,
    emailInvoked := true, emailReturned := true }

/-- C3 witness: the gate evaluated on a concrete one-call batch. -/
theorem C3_witness : evC3.emailInvoked = evC3.pushReturned :=
  C3_push_gates_email configA poSuccess eoTrue [callA] trackerInit evC3 (by decide)

theorem send_step_facts (call : PoliceCall) (config : Config)
    (tracker : TrackerState) (outcome : PushOutcome) :
    (send_notification call config tracker outcome).tracker.card
        = tracker.card
          + (if (send_notification call config tracker outcome).returned then 1 else 0)
    ∧ tracker ⊆ (send_notification call config tracker outcome).tracker
    ∧ (call.incident_number ∈ tracker →
        (send_notification call config tracker outcome).returned = false)
    ∧ ((send_notification call config tracker outcome).returned = true →
        call.incident_number ∈ (send_notification call config tracker outcome).tracker) := by
  rcases hmem : is_already_notified tracker call.incident_number with _ | _ <;>
    cases outcome <;>
    simp_all [send_notification, is_already_notified, mark_as_notified,
      Finset.card_insert_of_not_mem, Finset.subset_insert]

theorem processGo_count_invariants (config : Config) (po : Nat → PushOutcome)
    (eo : Nat → Bool) :
    ∀ (calls : List PoliceCall) (i : Nat) (tracker : TrackerState),
      (processGo config po eo calls i tracker).notifications_sent + tracker.card
          = (processGo config po eo calls i tracker).tracker.card
      ∧ tracker ⊆ (processGo config po eo calls i tracker).tracker
      ∧ (∀ id ∈ tracker, ∀ ev ∈ (processGo config po eo calls i tracker).trace,
          ev.call.incident_number = id → ev.pushReturned = false) := by
  intro calls
  induction calls with
  | nil =>
      intro i tracker
      refine ⟨by simp [processGo], Finset.Subset.refl _, ?_⟩
      intro id _ ev hev
      simp [processGo] at hev
  | cons call rest ih =>
      intro i tracker
      obtain ⟨hcard, hsub, hmemcase, hretmem⟩ :=
        send_step_facts call config tracker (po i)
      obtain ⟨ihc, ihs, ihi⟩ :=
        ih (i + 1) (send_notification call config tracker (po i)).tracker
      refine ⟨?_, ?_, ?_⟩
      · simp only [processGo]
        rcases hr : (send_notification call config tracker (po i)).returned with _ | _ <;>
          simp only [hr, if_true, if_false] at hcard ⊢ <;> omega
      · simp only [processGo]
        exact Finset.Subset.trans hsub ihs
      · intro id hid ev hev hevid
        simp only [processGo, List.mem_cons] at hev
        rcases hev with hev | hev
        · subst hev
          simp only at hevid ⊢
          exact hmemcase (hevid ▸ hid)
        · exact ihi id (hsub hid) ev hev hevid

theorem processGo_pairwise_dedup (config : Config) (po : Nat → PushOutcome)
    (eo : Nat → Bool) :
    ∀ (calls : List PoliceCall) (i : Nat) (tracker : TrackerState),
      ((processGo config po eo calls i tracker).trace).Pairwise
        (fun a b => a.call.incident_number = b.call.incident_number →
          ¬(a.pushReturned = true ∧ b.pushReturned = true)) := by
  intro calls
  induction calls with
  | nil => intro i tracker; simp [processGo]
  | cons call rest ih =>
      intro i tracker
      obtain ⟨hcard, hsub, hmemcase, hretmem⟩ :=
        send_step_facts call config tracker (po i)
      obtain ⟨ihc, ihs, ihi⟩ :=
        processGo_count_invariants config po eo rest (i + 1)
          (send_notification call config tracker (po i)).tracker
      simp only [processGo]
      refine List.pairwise_cons.mpr ⟨?_, ih (i + 1) _⟩
      intro b hb hid hcontra
      obtain ⟨ha, hbr⟩ := hcontra
      simp only at ha hid
      have hcm : call.incident_number
          ∈ (send_notification call config tracker (po i)).tracker := hretmem ha
      have hbfalse : b.pushReturned = false :=
        ihi call.incident_number hcm b hb hid.symm
      rw [hbr] at hbfalse
      cases hbfalse

/-- C10: the integer returned by `process_and_notify_matches` is exactly
the growth of `get_notification_count` across the call, and an incident id
repeated within one batch yields at most one successful (counted) send. -/
theorem C10_sent_eq_tracker_growth (config : Config)
    (pushOutcomes : Nat → PushOutcome) (emailOutcomes : Nat → Bool)
    (matching_calls : List PoliceCall) (tracker : TrackerState) :
    (process_and_notify_matches config pushOutcomes emailOutcomes
          matching_calls tracker).notifications_sent
        + get_notification_count tracker
      = get_notification_count ((process_and_notify_matches config pushOutcomes
          emailOutcomes matching_calls tracker).tracker)
    ∧ ((process_and_notify_matches config pushOutcomes emailOutcomes
          matching_calls tracker).trace).Pairwise
        (fun a b => a.call.incident_number = b.call.incident_number →
          ¬(a.pushReturned = true ∧ b.pushReturned = true)) :=
  ⟨(processGo_count_invariants config pushOutcomes emailOutcomes
      matching_calls 0 tracker).1,
   processGo_pairwise_dedup config pushOutcomes emailOutcomes
      matching_calls 0 tracker⟩

/-! ## monitor_loop error handling (lines 628–639) -/

/-- `max_consecutive_errors = 5`. -/
def max_consecutive_errors : Nat := 5

/-- `min(300, 30 * (2 ** (consecutive_errors - 1)))` — the exponential
network-failure backoff, capped at 5 minutes. -/
def backoff_time (consecutive_errors : Nat) : Nat :=
  min 300 (30 * 2 ^ (consecutive_errors - 1))

/-- What the loop does after a failed cycle: sleep some seconds and
continue, or re-raise and terminate. -/
inductive LoopAction where
  | sleepFor (seconds : Nat)
  | raiseFatal
deriving DecidableEq

/-- The `except requests.exceptions.RequestException` branch of
`monitor_loop`: increment the consecutive-error counter; at the threshold
re-raise (terminating the loop), otherwise sleep the exponential backoff.
Returns the new counter value and the action taken. -/
def network_error_step (consecutive_errors : Nat) : Nat × LoopAction :=
  let c := consecutive_errors + 1
  if max_consecutive_errors ≤ c then (c, .raiseFatal)
  else (c, .sleepFor (backoff_time c))

/-- C4: the backoff formula yields 30, 60, 120, 240, 300 for counter
values 1..5; after a network failure the loop sleeps that amount exactly
while the incremented counter is below the threshold of 5, and at the 5th
consecutive failure it re-raises (terminates) instead of backing off. -/
theorem C4_backoff_and_termination :
    (backoff_time 1 = 30 ∧ backoff_time 2 = 60 ∧ backoff_time 3 = 120
      ∧ backoff_time 4 = 240 ∧ backoff_time 5 = 300)
    ∧ (∀ c : Nat, c + 1 < max_consecutive_errors →
        network_error_step c = (c + 1, .sleepFor (backoff_time (c + 1))))
    ∧ (∀ c : Nat, max_consecutive_errors ≤ c + 1 →
        network_error_step c = (c + 1, .raiseFatal)) := by
  refine ⟨by decide, ?_, ?_⟩
  · intro c h
    simp [network_error_step, Nat.not_le.mpr h]
  · intro c h
    simp [network_error_step, h]

/-- C4 witness: the step evaluated at the concrete counter values 0 (first
failure: sleep 30) and 4 (fifth failure: terminate). -/
theorem C4_witness :
    network_error_step 0 = (1, .sleepFor 30)
    ∧ network_error_step 4 = (5, .raiseFatal) :=
  ⟨C4_backoff_and_termination.2.1 0 (by decide),
   C4_backoff_and_termination.2.2 4 (by decide)⟩

theorem pyStrip_eq_nil_iff (l : Str) :
    pyStrip l = [] ↔ ∀ x ∈ l, x.isWhitespace = true := by
  unfold pyStrip
  rw [List.reverse_eq_nil_iff, List.dropWhile_eq_nil_iff]
  constructor
  · intro h x hx
    by_cases hxw : x.isWhitespace = true
    · exact hxw
    · have hx2 : x ∈ l.takeWhile Char.isWhitespace ++ l.dropWhile Char.isWhitespace := by
        rw [List.takeWhile_append_dropWhile]
        exact hx
      rcases List.mem_append.mp hx2 with h1 | h1
      · exact absurd (List.mem_takeWhile_imp h1) hxw
      · exact h x (List.mem_reverse.mpr h1)
  · intro h x hx
    exact h x (List.dropWhile_subset _ (List.mem_reverse.mp hx))

/-! ## C8: BOM invariance

The source strips exactly one leading BOM character.  If the input already
begins with a BOM, prefixing another one leaves a BOM in front of the
markup handed to `ET.fromstring`, which then fails (XML *text* cannot begin
with U+FEFF content — the very reason the source strips it first), while
the unprefixed input parses.  So the claim holds only for inputs that do
not themselves begin with a BOM. -/

def docC8 : Str :=
  ("<CALLS><CALL incident=\"2025-00192513\"><DATE>5/27/2025 13:36</DATE><DESC>General investigation</DESC><LOCATION>2400 BLOCK 29TH ST</LOCATION><DISTRICT>G8</DISTRICT></CALL></CALLS>").toList

def treeC8 : XmlElem :=
  .mk ("CALLS".toList) [] none
    [ .mk ("CALL".toList) [(("incident".toList), ("2025-00192513".toList))] none
        [ .mk ("DATE".toList) [] (some ("5/27/2025 13:36".toList)) [],
          .mk ("DESC".toList) [] (some ("General investigation".toList)) [],
          .mk ("LOCATION".toList) [] (some ("2400 BLOCK 29TH ST".toList)) [],
          .mk ("DISTRICT".toList) [] (some ("G8".toList)) [] ] ]

/-- Oracle reflecting `ET.fromstring` on the inputs this counterexample
exercises: the well-formed document parses to `treeC8`; any other input —
in particular the same document with a leading BOM character — raises. -/
def fromstringC8 : Str → Except Unit XmlElem :=
  fun s => if s = docC8 then .ok treeC8 else .error ()

set_option maxRecDepth 100000 in
/-- C8 counterexample: for `s` equal to `docC8` with one BOM character in
front (an input that itself starts with a BOM), parsing `s` with another
BOM prefixed yields `[]` while parsing `s` yields one record — prefixing a
BOM does *not* always parse identically. -/
theorem C8_counterexample :
    parse_active_calls fromstringC8 (bomChar :: (bomChar :: docC8)) = []
    ∧ parse_active_calls fromstringC8 (bomChar :: docC8) = [callA] := by
  decide

/-- C8 (amended): provided the structural parser fails on whitespace-only
input (true of XML: no root element), prefixing one BOM character to any
input that does not already begin with a BOM parses identically to the
input itself. -/
theorem C8_bom_invariance_amended (fromstring : Str → Except Unit XmlElem)
    (hws : ∀ s : Str, pyStrip s = [] → fromstring s = .error ())
    (raw : Str) (hnb : [bomChar].isPrefixOf raw = false) :
    parse_active_calls fromstring (bomChar :: raw)
      = parse_active_calls fromstring raw := by
  have hstrip : ¬ pyStrip (bomChar :: raw) = [] := by
    intro h
    have hx := (pyStrip_eq_nil_iff _).mp h bomChar (List.mem_cons_self _ _)
    rw [show bomChar.isWhitespace = false from by decide] at hx
    cases hx
  have h1 : [bomChar].isPrefixOf (bomChar :: raw) = true := by
    simp [List.isPrefixOf]
  have hsb : stripBOM (bomChar :: raw) = stripBOM raw := by
    simp [stripBOM, h1, hnb]
  by_cases hsr : pyStrip raw = []
  · have hmoj : mojibakeBOM.isPrefixOf raw = false := by
      rcases hmp : mojibakeBOM.isPrefixOf raw with _ | _
      · rfl
      · exfalso
        obtain ⟨t, ht⟩ := List.isPrefixOf_iff_prefix.mp hmp
        have hmem : ('√' : Char) ∈ raw := by
          rw [← ht]
          exact List.mem_append_left _ (by decide)
        have hx := (pyStrip_eq_nil_iff raw).mp hsr _ hmem
        rw [show ('√' : Char).isWhitespace = false from by decide] at hx
        cases hx
    have hraw2 : stripBOM raw = raw := by
      simp [stripBOM, hnb, hmoj]
    have herr : fromstring (stripBOM raw) = .error () := by
      rw [hraw2]
      exact hws raw hsr
    simp only [parse_active_calls, if_neg hstrip, if_pos hsr, hsb, herr]
  · simp only [parse_active_calls, if_neg hstrip, if_neg hsr, hsb]

/-- C8 witness: the amended invariance applied with a concrete
always-failing structural parser and a concrete BOM-free input. -/
theorem C8_amended_witness :
    parse_active_calls fromstringErr (bomChar :: ("<CALLS>".toList))
      = parse_active_calls fromstringErr ("<CALLS>".toList) :=
  C8_bom_invariance_amended fromstringErr (fun _ _ => rfl)
    ("<CALLS>".toList) (by decide)
